import Mathlib

/-!
Formal model of the execution-orchestration and self-healing debug engine of
the `ai-coding-assistant` repository, together with proofs and refutations of
the specification claims about it.

Modelling conventions:
* Python dictionaries that serve as result records become Lean structures
  whose optional keys are `Option` fields (`none` = key absent).
* Machine-external effects (the Python `ast` parser, the `re` regex engine,
  the Docker client, subprocesses, the Daytona HTTP API, the LLM code
  producer) are passed in as explicit oracle functions; everything the
  repository's own code does with their answers is translated directly from
  the source.
* `Except String α` models a Python function that either returns a value or
  raises; `.error msg` is an exception escaping the function.
* Python's `str.lower`, `in` (substring), `str.split`, `len` are modelled by
  `pyLower` (ASCII case folding, all the blacklists are ASCII), `strContains`,
  `pySplit`, `String.length`.
-/

/-- Python's substring prefix test on character lists. -/
def charListPrefix : List Char → List Char → Bool
  | [], _ => true
  | _ :: _, [] => false
  | a :: as, b :: bs => a == b && charListPrefix as bs

/-- Contiguous-substring test on character lists (Python's `needle in hay`). -/
def charListInfix : List Char → List Char → Bool
  | needle, [] => charListPrefix needle []
  | needle, b :: bs => charListPrefix needle (b :: bs) || charListInfix needle bs

/-- Python's `needle in hay` on strings: contiguous substring containment. -/
def strContains (hay needle : String) : Bool :=
  charListInfix needle.data hay.data

/-- Scanner for `str.split`: at each leftmost occurrence of the (non-empty)
separator, emit the accumulated chunk and continue after the separator.  The
fuel argument makes the recursion structural; every call consumes at least
one input character per fuel unit, so fuel equal to the input length is
never exhausted and the zero-fuel arm is unreachable. -/
def pySplitGo (sep : List Char) : Nat → List Char → List Char → List (List Char)
  | _, [], acc => [acc.reverse]
  | 0, l, acc => [acc.reverse ++ l]
  | fuel + 1, c :: cs, acc =>
      if charListPrefix sep (c :: cs) then
        acc.reverse :: pySplitGo sep fuel (cs.drop (sep.length - 1)) []
      else
        pySplitGo sep fuel cs (c :: acc)

/-- Python's `s.split(sep)` for a non-empty separator. -/
def pySplit (s sep : String) : List String :=
  (pySplitGo sep.data s.data.length s.data []).map fun cs => ⟨cs⟩

/-- Python's `str.lower`: per-character case folding.  (Lean's
`Char.toLower` folds the ASCII range; every blacklist entry the checks
compare against is ASCII.) -/
def pyLower (s : String) : String :=
  ⟨s.data.map Char.toLower⟩

/-- Python's `str.strip()` with no argument: remove leading and trailing
whitespace. -/
def pyTrim (s : String) : String :=
  ⟨((s.data.dropWhile Char.isWhitespace).reverse.dropWhile
      Char.isWhitespace).reverse⟩

/-- A non-empty all-digit character sequence read as a number. -/
def digitsToNat? (cs : List Char) : Option Nat :=
  if cs.isEmpty then none
  else cs.foldl
    (fun acc? c => acc?.bind fun acc =>
      if c.isDigit then some (acc * 10 + (c.toNat - 48)) else none)
    (some 0)

/-- Python's `int(s)` on a string: strips whitespace, allows one optional
sign, then decimal digits; `none` models the `ValueError` raise.  (Python
additionally accepts underscores and non-ASCII digits; no claim depends on
those inputs.) -/
def pyInt (s : String) : Option Int :=
  match (pyTrim s).data with
  | '-' :: rest => (digitsToNat? rest).map fun n => -(n : Int)
  | '+' :: rest => (digitsToNat? rest).map fun n => (n : Int)
  | ds => (digitsToNat? ds).map fun n => (n : Int)

/-- Python's `repr` of a list of strings, e.g. `['python', 'bash']`. -/
def pyStrListRepr (xs : List String) : String :=
  "[" ++ String.intercalate ", " (xs.map (fun s => "\x27" ++ s ++ "\x27")) ++ "]"

/-- Python truthiness of an optional string: `None` and `""` are falsy. -/
def pyFalsyStr : Option String → Bool
  | none => true
  | some s => s.isEmpty

/-- An execution-result dictionary (`success`, `output`, `error`,
`exit_code`, `language`); `none` fields model absent dictionary keys. -/
structure ExecResult where
  success : Bool
  output : Option String := none
  error : Option String := none
  exit_code : Option Int := none
  language : Option String := none
deriving Repr, DecidableEq

/-! ## Python AST model

`SecurityManager` walks trees produced by `ast.parse`.  The node kinds its
checks inspect are embedded as constructors; every other node becomes
`other`.  Child statement/expression fields are flattened into one child
list; `ast.walk` enumerates a node and all of its descendants (breadth-first
in Python, preorder here — only membership in the enumeration matters to the
checks, never the order). -/

inductive PyNode where
  | functionDef (name : String) (body : List PyNode)
  | ifStmt (children : List PyNode)
  | whileStmt (children : List PyNode)
  | forStmt (children : List PyNode)
  | callName (funcName : String) (args : List PyNode)
  | callOther (children : List PyNode)
  | importStmt (names : List String)
  | importFrom (module : Option String) (children : List PyNode)
  | other (children : List PyNode)

mutual

/-- `ast.walk`: the node itself and all of its descendants. -/
def walkNode : PyNode → List PyNode
  | .functionDef name body => .functionDef name body :: walkChildren body
  | .ifStmt cs => .ifStmt cs :: walkChildren cs
  | .whileStmt cs => .whileStmt cs :: walkChildren cs
  | .forStmt cs => .forStmt cs :: walkChildren cs
  | .callName f args => .callName f args :: walkChildren args
  | .callOther cs => .callOther cs :: walkChildren cs
  | .importStmt names => [.importStmt names]
  | .importFrom m cs => .importFrom m cs :: walkChildren cs
  | .other cs => .other cs :: walkChildren cs

def walkChildren : List PyNode → List PyNode
  | [] => []
  | n :: rest => walkNode n ++ walkChildren rest

end

/-- Result of `ast.parse`: a tree, or a `SyntaxError` with its message. -/
inductive ParseResult where
  | ok (tree : PyNode)
  | syntaxError (msg : String)

/-- Oracles for the Python standard library used by `SecurityManager`:
`ast.parse`, `re.search`, and `re.search` with `re.IGNORECASE`. -/
structure PyEnv where
  parse : String → ParseResult
  reSearch : String → String → Bool
  reSearchCI : String → String → Bool

/-! ## SecurityManager (src/ai_coding/manager/security_manager.py) -/

def BLACKLISTED_COMMANDS : List String :=
  ["rm -rf", "format", "dd", "mkfs",
   "shutdown", "reboot", "halt",
   "del /s", "rmdir /s", "format c:"]

def BLACKLISTED_IMPORTS : List String :=
  ["os.system", "subprocess.run", "eval",
   "exec", "__import__", "compile",
   "pickle.loads", "marshal.loads"]

def BLACKLISTED_MODULES : List String :=
  ["subprocess", "os", "sys", "socket",
   "ftplib", "urllib", "http"]

/-- `SecurityManager.__init__` state. -/
structure SecurityManagerState where
  enable_sandbox : Bool := true
  max_code_length : Nat := 10000

def defaultSecurity : SecurityManagerState := {}

/-- Issues contributed by one AST node inside `_check_python_code`'s walk. -/
def nodeIssues : PyNode → List String
  | .importStmt names =>
      names.filterMap fun nm =>
        if BLACKLISTED_MODULES.contains nm then
          some ("检测到危险模块导入: " ++ nm)
        else none
  | .importFrom m _ =>
      match m with
      | some nm =>
          if !nm.isEmpty && BLACKLISTED_MODULES.contains nm then
            ["检测到危险模块导入: " ++ nm]
          else []
      | none => []
  | .callName f _ =>
      if ["eval", "exec", "compile", "__import__"].contains f then
        ["检测到危险函数调用: " ++ f]
      else []
  | _ => []

/-- `SecurityManager._check_python_code`: substring scan for blacklisted
imports, then AST-walk issues (or the syntax-error issue). -/
def check_python_code (env : PyEnv) (code : String) : List String :=
  let impIssues := BLACKLISTED_IMPORTS.filterMap fun imp =>
    if strContains code imp then some ("检测到危险导入/函数: " ++ imp) else none
  impIssues ++
    match env.parse code with
    | .ok tree => (walkNode tree).flatMap nodeIssues
    | .syntaxError e => ["语法错误: " ++ e]

/-- `SecurityManager._check_javascript_code`. -/
def check_javascript_code (code : String) : List String :=
  (if strContains code "eval(" then ["检测到eval函数"] else []) ++
  (if strContains code "new Function(" then ["检测到Function构造函数"] else []) ++
  (if strContains code "document.write" then
    ["检测到document.write（可能存在XSS风险）"] else [])

def BASH_DANGEROUS_PATTERNS : List String :=
  ["rm\\s+-rf\\s+/", "dd\\s+if=", "mkfs.", ":\\(\\)\\\x7b\\s*:\\|:&\\s*\\\x7d\\;"]

/-- `SecurityManager._check_bash_code`: regex scan over the fixed patterns. -/
def check_bash_code (env : PyEnv) (code : String) : List String :=
  BASH_DANGEROUS_PATTERNS.filterMap fun pat =>
    if env.reSearch pat code then some ("检测到危险Bash命令: " ++ pat) else none

/-- Matcher for a `Call` of the function named `fname` (the
`isinstance(subnode, ast.Call)` / `ast.Name` / `.id == node.name` test). -/
def isSelfCallOf (fname : String) : PyNode → Bool
  | .callName f _ => f == fname
  | _ => false

/-- Matcher for `isinstance(node, (ast.If, ast.While))`. -/
def isIfOrWhile : PyNode → Bool
  | .ifStmt _ => true
  | .whileStmt _ => true
  | _ => false

/-- Inner scan of `_detect_infinite_recursion`: does the function's subtree
contain a call to the function's own name? -/
def hasSelfCall (fname : String) (funcNode : PyNode) : Bool :=
  (walkNode funcNode).any (isSelfCallOf fname)

/-- `SecurityManager._has_termination_condition`: an `If` or `While`
anywhere in the function's subtree. -/
def has_termination_condition (funcNode : PyNode) : Bool :=
  (walkNode funcNode).any isIfOrWhile

/-- One node's contribution to `_detect_infinite_recursion`: a function
definition that calls itself and has no `If`/`While` in its subtree. -/
def recursionSuspect : PyNode → Bool
  | .functionDef name body =>
      hasSelfCall name (.functionDef name body) &&
        !has_termination_condition (.functionDef name body)
  | _ => false

/-- `SecurityManager._detect_infinite_recursion` on a parsed tree. -/
def detect_infinite_recursion_ast (tree : PyNode) : Bool :=
  (walkNode tree).any recursionSuspect

/-- `SecurityManager._detect_infinite_recursion` on source text: any
exception from parsing (`except Exception: pass`) yields `False`. -/
def detect_infinite_recursion (env : PyEnv) (code : String) : Bool :=
  match env.parse code with
  | .ok tree => detect_infinite_recursion_ast tree
  | .syntaxError _ => false

/-- `SecurityManager._remove_dangerous_code`. -/
def remove_dangerous_code (code : String) (_language : String) : String :=
  BLACKLISTED_IMPORTS.foldl
    (fun acc imp => acc.replace imp ("# REMOVED: " ++ imp)) code

def SENSITIVE_PATTERNS : List String :=
  ["password\\s*=\\s*[\x27\"][^\x27\"]+[\x27\"]",
   "api[_-]?key\\s*=\\s*[\x27\"][^\x27\"]+[\x27\"]",
   "secret\\s*=\\s*[\x27\"][^\x27\"]+[\x27\"]"]

def IP_PATTERN : String :=
  "\\d\x7b1,3\x7d\\.\\d\x7b1,3\x7d\\.\\d\x7b1,3\x7d\\.\\d\x7b1,3\x7d"

/-- `SecurityManager._get_warnings`: non-fatal warnings (secrets, IPs). -/
def get_warnings (env : PyEnv) (code : String) (_language : String) : List String :=
  (SENSITIVE_PATTERNS.filterMap fun pat =>
    if env.reSearchCI pat code then
      some "代码中可能包含敏感信息（密码、密钥等）"
    else none) ++
  (if env.reSearch IP_PATTERN code then ["代码中包含硬编码的IP地址"] else [])

/-- The dictionary returned by `SecurityManager.sanitize_code`. -/
structure SecurityVerdict where
  safe : Bool
  issues : List String
  sanitized_code : String
  warnings : List String
deriving Repr, DecidableEq

/-- `SecurityManager.sanitize_code`: length bound, language-specific check,
command blacklist, recursion heuristic; `safe = (issues is empty)`. -/
def sanitize_code (env : PyEnv) (mgr : SecurityManagerState)
    (code : String) (language : String) : SecurityVerdict :=
  let lengthIssues :=
    if code.length > mgr.max_code_length then
      ["代码过长 (" ++ toString code.length ++ " > " ++
        toString mgr.max_code_length ++ ")"]
    else []
  let langIssues :=
    if pyLower language == "python" then check_python_code env code
    else if pyLower language == "javascript" || pyLower language == "js" then
      check_javascript_code code
    else if pyLower language == "bash" then check_bash_code env code
    else []
  let cmdIssues := BLACKLISTED_COMMANDS.filterMap fun cmd =>
    if strContains (pyLower code) (pyLower cmd) then
      some ("检测到危险命令: " ++ cmd)
    else none
  let recIssues :=
    if detect_infinite_recursion env code then ["可能包含无限递归"] else []
  let issues := lengthIssues ++ langIssues ++ cmdIssues ++ recIssues
  { safe := issues.isEmpty
    issues := issues
    sanitized_code :=
      if issues.isEmpty then code else remove_dangerous_code code language
    warnings := get_warnings env code language }

/-! ## MultiLanguageExecutor (src/ai_coding/executor/multi_language_executor.py) -/

/-- One entry of `SUPPORTED_LANGUAGES`. -/
structure LangConfig where
  image : String
  command : String
  file_ext : String
  use_docker : Bool
deriving Repr, DecidableEq

def SUPPORTED_LANGUAGES : List (String × LangConfig) :=
  [("python", ⟨"python:3.9-slim", "python code.py < input.txt", ".py", true⟩),
   ("javascript", ⟨"node:16-slim", "node code.js < input.txt", ".js", true⟩),
   ("java", ⟨"openjdk:11-slim", "javac code.java && java Main < input.txt", ".java", true⟩),
   ("go", ⟨"golang:1.19-alpine", "go run code.go < input.txt", ".go", true⟩),
   ("rust", ⟨"rust:slim", "rustc code.rs -o app && ./app < input.txt", ".rs", true⟩),
   ("bash", ⟨"alpine", "sh code.sh < input.txt", ".sh", true⟩),
   ("c", ⟨"gcc:latest", "gcc code.c -o app && ./app < input.txt", ".c", true⟩),
   ("cpp", ⟨"gcc:latest", "g++ code.cpp -o app && ./app < input.txt", ".cpp", true⟩)]

def supportedLanguageNames : List String := SUPPORTED_LANGUAGES.map (·.1)

/-- `language in SUPPORTED_LANGUAGES` lookup. -/
def lookupLanguage (language : String) : Option LangConfig :=
  (SUPPORTED_LANGUAGES.find? (fun p => p.1 == language)).map (·.2)

/-- `DaytonaExecutor` instance state (API key from argument or environment,
lazily created workspace id). -/
structure DaytonaState where
  api_key : Option String
  workspace_id : Option String := none
deriving Repr, DecidableEq

/-- `MultiLanguageExecutor` instance state: `execution_mode` is lowercased in
`__init__`; `use_docker` holds the construction-time availability probe; a
`DaytonaExecutor` is constructed only in `daytona` mode. -/
structure MLExecutorState where
  timeout : Nat := 30
  memory_limit : String := "100m"
  execution_mode : String := "auto"
  use_docker : Bool := false
  daytona_executor : Option DaytonaState := none
deriving Repr, DecidableEq

/-- `MultiLanguageExecutor.__init__`: `dockerProbe` is the result of
`_check_docker_available()`, `envApiKey` the `DAYTONA_API_KEY` variable read
by `DaytonaExecutor.__init__`. -/
def mkMLExecutor (timeout : Nat) (memoryLimit : String) (mode : String)
    (dockerProbe : Bool) (envApiKey : Option String) : MLExecutorState :=
  { timeout := timeout
    memory_limit := memoryLimit
    execution_mode := pyLower mode
    use_docker := dockerProbe
    daytona_executor :=
      if pyLower mode == "daytona" then some { api_key := envApiKey } else none }

/-- Effect oracles for the executor: the Docker import and container run, the
local-subprocess backend (`_execute_locally`, all I/O, no claim inspects its
internals), and the Daytona network exchange after the credential check. -/
structure ExecEnv where
  dockerImportOk : Bool
  dockerRun : MLExecutorState → String → String → String → LangConfig → Except String String
  localRun : String → String → String → LangConfig → ExecResult
  daytonaNet : DaytonaState → String → String → Except String ExecResult

/-- The failure dictionary built by `_execute_in_docker`'s `except` handler:
whatever the container run raised becomes `success=False`, `exit_code=-1`. -/
def mlDockerExceptionResult (language msg : String) : ExecResult :=
  { success := false, output := some "", error := some msg,
    exit_code := some (-1), language := some language }

/-- `MultiLanguageExecutor._execute_in_docker`: re-import of `docker`, then
the container run; a returned byte string is success with exit code 0, any
exception is caught into a failure result. -/
def execute_in_docker (env : ExecEnv) (st : MLExecutorState)
    (language code stdin : String) (config : LangConfig) : ExecResult :=
  if !env.dockerImportOk then
    { success := false, error := some "Docker未安装", exit_code := some (-1) }
  else
    match env.dockerRun st language code stdin config with
    | .ok out =>
        { success := true, output := some out, error := some "",
          exit_code := some 0, language := some language }
    | .error msg => mlDockerExceptionResult language msg

/-- `DaytonaExecutor.execute_code`: raises `ValueError` when the API key is
falsy, otherwise performs the workspace/HTTP exchange (oracle). -/
def daytona_execute_code (env : ExecEnv) (d : DaytonaState)
    (code language : String) : Except String ExecResult :=
  if pyFalsyStr d.api_key then .error "Daytona API密钥未配置"
  else env.daytonaNet d code language

/-- A recorded invocation of one of the three execution backends. -/
inductive BackendCall where
  | docker (language code : String)
  | localExec (language code : String)
  | daytona (code language : String)
deriving Repr, DecidableEq

/-- The immediate unsupported-language result of `execute`. -/
def unsupportedLanguageResult (language : String) : ExecResult :=
  { success := false
    error := some ("不支持的语言: " ++ language ++
      (". 支持的语言: " ++ pyStrListRepr supportedLanguageNames))
    exit_code := some (-1) }

/-- `MultiLanguageExecutor.execute`: language lookup after lowercasing, then
mode dispatch (`daytona` / `docker` / `local` / `auto`).  The call trace
records every backend invocation; `.error` models an exception escaping
`execute` (the Daytona `ValueError`). -/
def MLexecute (env : ExecEnv) (st : MLExecutorState)
    (language code stdin : String) :
    Except String (ExecResult × List BackendCall) :=
  let lang := pyLower language
  match lookupLanguage lang with
  | none => .ok (unsupportedLanguageResult lang, [])
  | some config =>
      if st.execution_mode == "daytona" then
        match st.daytona_executor with
        | none =>
            .ok ({ success := false, error := some "Daytona模式需要API密钥配置",
                   exit_code := some (-1) }, [])
        | some d =>
            match daytona_execute_code env d code lang with
            | .error e => .error e
            | .ok r => .ok ({ r with language := some lang },
                [BackendCall.daytona code lang])
      else if st.execution_mode == "docker" then
        if !st.use_docker then
          .ok ({ success := false, error := some "Docker不可用，无法执行",
                 exit_code := some (-1) }, [])
        else
          .ok (execute_in_docker env st lang code stdin config,
            [BackendCall.docker lang code])
      else if st.execution_mode == "local" then
        .ok (env.localRun lang code stdin config, [BackendCall.localExec lang code])
      else
        if config.use_docker && !st.use_docker then
          .ok (env.localRun lang code stdin config, [BackendCall.localExec lang code])
        else if st.use_docker && config.use_docker then
          .ok (execute_in_docker env st lang code stdin config,
            [BackendCall.docker lang code])
        else
          .ok (env.localRun lang code stdin config, [BackendCall.localExec lang code])

/-! ## CodeExecutor (src/ai_coding/executor/code_executor.py) -/

/-- `CodeExecutor._execute_python_in_docker`'s `except` handler: when the
exception text mentions `exit code`, the number after the (case-sensitive)
`"exit code "` and before the next `)` is parsed with `int` and carried;
a failed `int` parse re-raises (`.error`); otherwise `exit_code` is `-1`. -/
def py_docker_exception_handler (msg : String) : Except String ExecResult :=
  if strContains (pyLower msg) "exit code" then
    match pyInt ((pySplit ((pySplit msg "exit code ").getLastD "") ")").headD "") with
    | some n =>
        .ok { success := false, output := some "", error := some msg,
              exit_code := some n }
    | none => .error "ValueError: invalid literal for int()"
  else .ok { success := false, error := some msg, exit_code := some (-1) }

/-- Oracles for `CodeExecutor`'s python-in-docker path. -/
structure CodeExecEnv where
  dockerImportOk : Bool
  dockerRunPy : String → String → Except String String

/-- `CodeExecutor._execute_python_in_docker`. -/
def execute_python_in_docker (env : CodeExecEnv) (code input_data : String) :
    Except String ExecResult :=
  if !env.dockerImportOk then
    .ok { success := false, error := some "Docker未安装" }
  else
    match env.dockerRunPy code input_data with
    | .ok out =>
        .ok { success := true, output := some out, error := some "",
              exit_code := some 0 }
    | .error msg => py_docker_exception_handler msg

/-! ## InteractiveDebugger (src/ai_coding/debugger/interactive_debugger.py) -/

/-- The debugger's collaborators: the executor it was constructed with
(`execute_python` / `execute`, either of which may raise) and the code
producer (`fix_code`, `analyze_error`). -/
structure DebugEnv where
  execPython : String → Except String ExecResult
  execLang : String → String → Except String ExecResult
  fix : String → String → String → String
  analyze : String → String → String → String

/-- `InteractiveDebugger._test_code`: dispatch on `language == 'python'`;
any exception becomes `success=False, error=str(e), exit_code=-1`. -/
def test_code (env : DebugEnv) (code language : String) : ExecResult :=
  match (if language == "python" then env.execPython code
         else env.execLang language code) with
  | .ok r => r
  | .error e => { success := false, error := some e, exit_code := some (-1) }

/-- The dictionary returned by `debug_and_fix`; `none` fields model keys
absent from the respective (success / failure) return value. -/
structure DebugOutcome where
  success : Bool
  fixed_code : Option String := none
  attempts : Nat := 0
  explanation : Option String := none
  execution_result : Option ExecResult := none
  error : Option String := none
  original_code : Option String := none
  last_error : Option String := none
deriving Repr, DecidableEq

/-- The loop body of `debug_and_fix`, by remaining iterations of
`for attempt in range(max_retries)`; `attempt` counts completed iterations.
The second component records every source handed to `_test_code`, i.e. every
repaired source that was executed. -/
def debugLoop (env : DebugEnv) (maxRetries : Nat) (originalCode language : String) :
    Nat → Nat → String → String → DebugOutcome × List String
  | 0, _, _, currentError =>
      ({ success := false
         error := some ("无法修复代码，已尝试" ++ toString maxRetries ++ "次")
         attempts := maxRetries
         original_code := some originalCode
         last_error := some currentError }, [])
  | remaining + 1, attempt, currentCode, currentError =>
      let analysis := env.analyze currentCode currentError language
      let fixedCode := env.fix currentCode currentError language
      let testResult := test_code env fixedCode language
      if testResult.success then
        ({ success := true
           fixed_code := some fixedCode
           attempts := attempt + 1
           explanation := some analysis
           execution_result := some testResult }, [fixedCode])
      else
        let next := debugLoop env maxRetries originalCode language remaining
          (attempt + 1) fixedCode (testResult.error.getD "未知错误")
        (next.1, fixedCode :: next.2)

/-- `InteractiveDebugger.debug_and_fix` plus the trace of executed repaired
sources. -/
def debug_and_fix (env : DebugEnv) (maxRetries : Nat)
    (originalCode error language : String) : DebugOutcome × List String :=
  debugLoop env maxRetries originalCode language maxRetries 0 originalCode error

/-- The error text of the final failed attempt (the value `current_error`
holds when the loop exhausts): seeded with the initial error, updated with
each failing execution's error text. -/
def lastAttemptError (env : DebugEnv) (language : String) :
    Nat → String → String → String
  | 0, _, err => err
  | remaining + 1, currentCode, currentError =>
      let fixedCode := env.fix currentCode currentError language
      let testResult := test_code env fixedCode language
      if testResult.success then currentError
      else lastAttemptError env language remaining fixedCode
        (testResult.error.getD "未知错误")

/-! ## AICodingWorkflow._handle_execute_code (src/ai_coding/workflow.py) -/

/-- The response dictionary assembled by `_handle_execute_code`. -/
structure HandlerResponse where
  action : String
  success : Bool
  code : Option String := none
  output : Option String := none
  error : Option String := none
  exit_code : Option Int := none
  fixed : Option Bool := none
  attempts : Option Nat := none
deriving Repr, DecidableEq

/-- A recorded call from the workflow into the orchestrator layer. -/
inductive OrchestratorCall where
  | executeCall (language code stdin : String)
  | debugCall (code error language : String)
deriving Repr, DecidableEq

/-- The workflow's collaborators: the security-manager stdlib oracles, the
code producer (`generate_code`), the executor-backend oracles, and the
debugger wiring. -/
structure HandlerEnv where
  pyEnv : PyEnv
  genCode : String → String → String
  execEnv : ExecEnv
  debugEnv : DebugEnv

/-- Workflow state: the `SecurityManager` and `MultiLanguageExecutor`
instances plus the debugger's `max_retries`. -/
structure WorkflowState where
  security : SecurityManagerState := defaultSecurity
  executor : MLExecutorState := {}
  debugMaxRetries : Nat := 3

/-- `AICodingWorkflow._handle_execute_code`: generate code, run the security
check, refuse unsafe code before any execution, otherwise execute and — on
failure — hand the code to `debug_and_fix`.  The call list records every
invocation of the orchestrator (`execute`) and the debugger. -/
def handle_execute_code (env : HandlerEnv) (st : WorkflowState)
    (userInput language stdin : String) :
    Except String (HandlerResponse × List OrchestratorCall) :=
  let code := env.genCode userInput language
  let securityCheck := sanitize_code env.pyEnv st.security code language
  if !securityCheck.safe then
    .ok ({ action := "execute_code"
           success := false
           error := some ("代码安全检查未通过: " ++ pyStrListRepr securityCheck.issues)
           code := some code }, [])
  else
    match MLexecute env.execEnv st.executor language code stdin with
    | .error e => .error e
    | .ok (result, _) =>
        if result.success then
          .ok ({ action := "execute_code"
                 success := true
                 code := some code
                 output := result.output
                 exit_code := result.exit_code }, [.executeCall language code stdin])
        else
          let dbg := (debug_and_fix env.debugEnv st.debugMaxRetries code
            (result.error.getD "") language).1
          .ok ({ action := "execute_code"
                 success := dbg.success
                 code := some (dbg.fixed_code.getD code)
                 output := some ((dbg.execution_result.bind (·.output)).getD "")
                 error := result.error
                 fixed := some dbg.success
                 attempts := some dbg.attempts },
               [.executeCall language code stdin,
                .debugCall code (result.error.getD "") language])

/-! ## Claim-side definition (refinement comparison for the recursion
heuristic) -/

/-- Modelled from the claim's words: a "conditional or loop construct"
(`if`, `while`, or `for`). -/
def isCondOrLoopConstruct : PyNode → Bool
  | .ifStmt _ => true
  | .whileStmt _ => true
  | .forStmt _ => true
  | _ => false

/-- Modelled from the claim's words: flag exactly when some function
definition contains a call to itself and its body contains no conditional or
loop construct.  To be compared with `detect_infinite_recursion_ast`, the
translation of the source. -/
def specRecursionFlag (tree : PyNode) : Bool :=
  (walkNode tree).any fun n =>
    match n with
    | .functionDef name body =>
        hasSelfCall name (.functionDef name body) &&
          !((walkNode (.functionDef name body)).any isCondOrLoopConstruct)
    | _ => false

/-! ## Concrete environments for witnesses and counterexamples -/

/-- Stdlib oracle where parsing fails (as it does on non-Python text such as
`rm -rf /`) and no regex matches. -/
def cexSecPyEnv : PyEnv :=
  { parse := fun _ => .syntaxError "invalid syntax"
    reSearch := fun _ _ => false
    reSearchCI := fun _ _ => false }

/-- A repaired source containing a denylisted destructive command. -/
def cexViolatingFix : String := "rm -rf /"

/-- Debugger wiring whose code producer always answers with the destructive
source above and whose executor always reports a runtime failure. -/
def cexDebugEnv : DebugEnv :=
  { execPython := fun _ =>
      .ok { success := false, error := some "permission denied", exit_code := some 1 }
    execLang := fun _ _ =>
      .ok { success := false, error := some "permission denied", exit_code := some 1 }
    fix := fun _ _ _ => cexViolatingFix
    analyze := fun _ _ _ => "analysis" }

/-- Debugger wiring whose repaired sources always fail to execute. -/
def wFailDebugEnv : DebugEnv :=
  { execPython := fun _ =>
      .ok { success := false, error := some "SyntaxError", exit_code := some 1 }
    execLang := fun _ _ =>
      .ok { success := false, error := some "SyntaxError", exit_code := some 1 }
    fix := fun _ _ _ => "y = 2"
    analyze := fun _ _ _ => "analysis" }

/-- Debugger wiring whose first repaired source executes successfully. -/
def wSuccDebugEnv : DebugEnv :=
  { execPython := fun _ =>
      .ok { success := true, output := some "42", error := some "", exit_code := some 0 }
    execLang := fun _ _ =>
      .ok { success := true, output := some "42", error := some "", exit_code := some 0 }
    fix := fun _ _ _ => "print(42)"
    analyze := fun _ _ _ => "analysis" }

/-- Backend oracles that never fail (used where the claim never reaches
them). -/
def trivialExecEnv : ExecEnv :=
  { dockerImportOk := true
    dockerRun := fun _ _ _ _ _ => .ok ""
    localRun := fun _ _ _ _ =>
      { success := true, output := some "", error := some "", exit_code := some 0 }
    daytonaNet := fun _ _ _ =>
      .ok { success := true, output := some "", error := some "", exit_code := some 0 } }

/-- A container-invocation failure message carrying a meaningful exit
code. -/
def cexDockerMsg : String :=
  "Command python code.py in image python:3.9-slim returned failure (exit code 137)"

/-- Backend oracles where the container run raises with the message above. -/
def cexDockerEnv : ExecEnv :=
  { trivialExecEnv with dockerRun := fun _ _ _ _ _ => .error cexDockerMsg }

/-- The registry entry for python. -/
def pythonConfig : LangConfig :=
  ⟨"python:3.9-slim", "python code.py < input.txt", ".py", true⟩

/-- An executor constructed in `daytona` mode with no API key in argument or
environment. -/
def cexDaytonaNoKeySt : MLExecutorState := mkMLExecutor 30 "100m" "daytona" false none

/-- An executor constructed in explicit `docker` mode with the
construction-time probe reporting the runtime unreachable. -/
def wDockerModeSt : MLExecutorState := mkMLExecutor 30 "100m" "docker" false none

/-- Executor state in `daytona` mode without a constructed Daytona client
(the mode was switched after construction). -/
def wDaytonaNoneSt : MLExecutorState :=
  { execution_mode := "daytona", use_docker := false, daytona_executor := none }

/-- Executor state in `daytona` mode whose client was constructed with an
empty API key. -/
def wDaytonaEmptyKeySt : MLExecutorState := mkMLExecutor 30 "100m" "daytona" false (some "")

/-- The tree of `def f():  for i in range(1):  f()` — a self-call guarded
only by a `for` loop. -/
def cexRecursionAst : PyNode :=
  .other [.functionDef "f" [.forStmt [.callName "range" [], .callName "f" []]]]

def cexRecursionSource : String :=
  "def f():\n    for i in range(1):\n        f()"

/-- Stdlib oracle parsing the source above to its tree. -/
def cexRecursionPyEnv : PyEnv :=
  { parse := fun _ => .ok cexRecursionAst
    reSearch := fun _ _ => false
    reSearchCI := fun _ _ => false }

/-- Workflow wiring whose code producer emits the destructive source. -/
def wHandlerEnv : HandlerEnv :=
  { pyEnv := cexSecPyEnv
    genCode := fun _ _ => "rm -rf /"
    execEnv := trivialExecEnv
    debugEnv := wFailDebugEnv }

def wWorkflowState : WorkflowState := {}

/-! ## Helper lemmas -/

theorem charListPrefix_self_append (b c : List Char) :
    charListPrefix b (b ++ c) = true := by
  induction b with
  | nil => rfl
  | cons a as ih => simp [charListPrefix, ih]

theorem charListInfix_of_prefix (needle hay : List Char)
    (h : charListPrefix needle hay = true) : charListInfix needle hay = true := by
  cases hay <;> simp [charListInfix, h]

theorem charListInfix_cons (needle : List Char) (b : Char) (bs : List Char)
    (h : charListInfix needle bs = true) :
    charListInfix needle (b :: bs) = true := by
  simp [charListInfix, h]

theorem charListInfix_append_middle (a b c : List Char) :
    charListInfix b (a ++ (b ++ c)) = true := by
  induction a with
  | nil => exact charListInfix_of_prefix _ _ (charListPrefix_self_append b c)
  | cons x xs ih => simpa using charListInfix_cons _ x _ ih

theorem strContains_append_middle (a b c : String) :
    strContains (a ++ b ++ c) b = true := by
  unfold strContains
  rw [String.data_append, String.data_append, List.append_assoc]
  exact charListInfix_append_middle a.data b.data c.data

/-- If a blacklisted command occurs in the lowered code, the command-scan
part of `sanitize_code` produces at least one issue. -/
theorem cmd_issues_ne_nil (code cmd : String)
    (hc : cmd ∈ BLACKLISTED_COMMANDS)
    (hsub : strContains (pyLower code) (pyLower cmd) = true) :
    (BLACKLISTED_COMMANDS.filterMap fun c =>
      if strContains (pyLower code) (pyLower c) then
        some ("检测到危险命令: " ++ c)
      else none) ≠ [] := by
  intro hnil
  have := (List.filterMap_eq_nil_iff.mp hnil) cmd hc
  rw [hsub] at this
  simp at this

/-- A blacklisted-command hit makes the verdict unsafe, whatever the
language and the stdlib oracles. -/
theorem sanitize_code_unsafe_of_blacklisted_cmd (env : PyEnv)
    (mgr : SecurityManagerState) (code language cmd : String)
    (hc : cmd ∈ BLACKLISTED_COMMANDS)
    (hsub : strContains (pyLower code) (pyLower cmd) = true) :
    (sanitize_code env mgr code language).safe = false := by
  have hne := cmd_issues_ne_nil code cmd hc hsub
  unfold sanitize_code
  by_contra h
  rw [Bool.not_eq_false, List.isEmpty_iff] at h
  simp only [List.append_eq_nil] at h
  exact hne (by tauto)

/-- The loop executes at most one repaired source per remaining iteration. -/
theorem debugLoop_trace_length_le (env : DebugEnv) (maxR : Nat)
    (orig lang : String) :
    ∀ r a c e, (debugLoop env maxR orig lang r a c e).2.length ≤ r := by
  intro r
  induction r with
  | zero => intro a c e; simp [debugLoop]
  | succ n ih =>
      intro a c e
      simp only [debugLoop]
      split
      · simp
      · simpa using ih (a + 1) _ _

/-- With a code producer whose repaired sources always fail to execute, the
loop runs all remaining iterations and produces the stock failure record. -/
theorem debugLoop_all_fail (env : DebugEnv) (maxR : Nat) (orig lang : String)
    (hfail : ∀ c e, (test_code env (env.fix c e lang) lang).success = false) :
    ∀ r a c e,
      (debugLoop env maxR orig lang r a c e).1.success = false ∧
      (debugLoop env maxR orig lang r a c e).1.attempts = maxR ∧
      (debugLoop env maxR orig lang r a c e).1.error =
        some ("无法修复代码，已尝试" ++ toString maxR ++ "次") ∧
      (debugLoop env maxR orig lang r a c e).1.original_code = some orig ∧
      (debugLoop env maxR orig lang r a c e).2.length = r := by
  intro r
  induction r with
  | zero => intro a c e; simp [debugLoop]
  | succ n ih =>
      intro a c e
      simp only [debugLoop, hfail c e, if_false]
      simpa using ih (a + 1) _ _

/-- On the failure path, the outcome carries the original source and the
error text of the last attempt. -/
theorem debugLoop_failure_fields (env : DebugEnv) (maxR : Nat)
    (orig lang : String) :
    ∀ r a c e, (debugLoop env maxR orig lang r a c e).1.success = false →
      (debugLoop env maxR orig lang r a c e).1.original_code = some orig ∧
      (debugLoop env maxR orig lang r a c e).1.last_error =
        some (lastAttemptError env lang r c e) := by
  intro r
  induction r with
  | zero => intro a c e _; simp [debugLoop, lastAttemptError]
  | succ n ih =>
      intro a c e h
      rw [debugLoop] at h ⊢
      rw [lastAttemptError]
      by_cases hs : (test_code env (env.fix c e lang) lang).success = true
      · simp [hs] at h
      · rw [Bool.not_eq_true] at hs
        simp only [hs, if_false] at h ⊢
        exact ih (a + 1) _ _ h

/-! ## Claim theorems -/

/-- Claim C1: with a code producer whose fixes always fail to execute,
`debug_and_fix` executes at most `maxAttempts` repaired sources — in fact
exactly `maxAttempts` — and returns `success=false` with
`attempts == maxAttempts`. -/
theorem debug_and_fix_retry_ceiling (env : DebugEnv) (maxR : Nat)
    (orig err lang : String)
    (hfail : ∀ c e, (test_code env (env.fix c e lang) lang).success = false) :
    (debug_and_fix env maxR orig err lang).2.length ≤ maxR ∧
    (debug_and_fix env maxR orig err lang).1.success = false ∧
    (debug_and_fix env maxR orig err lang).1.attempts = maxR ∧
    (debug_and_fix env maxR orig err lang).2.length = maxR := by
  have h := debugLoop_all_fail env maxR orig lang hfail maxR 0 orig err
  exact ⟨debugLoop_trace_length_le env maxR orig lang maxR 0 orig err,
    h.1, h.2.1, h.2.2.2.2⟩

/-- Witness for C1 at a concrete always-failing producer with the default
ceiling of three attempts. -/
theorem debug_and_fix_retry_ceiling_witness :
    (debug_and_fix wFailDebugEnv 3 "x = 1" "NameError" "python").2.length ≤ 3 ∧
    (debug_and_fix wFailDebugEnv 3 "x = 1" "NameError" "python").1.success = false ∧
    (debug_and_fix wFailDebugEnv 3 "x = 1" "NameError" "python").1.attempts = 3 ∧
    (debug_and_fix wFailDebugEnv 3 "x = 1" "NameError" "python").2.length = 3 :=
  debug_and_fix_retry_ceiling wFailDebugEnv 3 "x = 1" "NameError" "python"
    (fun _ _ => rfl)

/-- Claim C6: when the first repaired source executes successfully,
`debug_and_fix` returns `success=true`, `attempts == 1`, and carries that
repaired source. -/
theorem debug_and_fix_first_fix_converges (env : DebugEnv) (maxR : Nat)
    (orig err lang : String) (hpos : 0 < maxR)
    (hfix : (test_code env (env.fix orig err lang) lang).success = true) :
    (debug_and_fix env maxR orig err lang).1.success = true ∧
    (debug_and_fix env maxR orig err lang).1.attempts = 1 ∧
    (debug_and_fix env maxR orig err lang).1.fixed_code =
      some (env.fix orig err lang) := by
  cases maxR with
  | zero => omega
  | succ n =>
      unfold debug_and_fix
      rw [debugLoop]
      simp [hfix]

/-- Witness for C6 at a concrete immediately-converging producer. -/
theorem debug_and_fix_first_fix_converges_witness :
    (debug_and_fix wSuccDebugEnv 3 "x = 1" "NameError" "python").1.success = true ∧
    (debug_and_fix wSuccDebugEnv 3 "x = 1" "NameError" "python").1.attempts = 1 ∧
    (debug_and_fix wSuccDebugEnv 3 "x = 1" "NameError" "python").1.fixed_code =
      some (wSuccDebugEnv.fix "x = 1" "NameError" "python") :=
  debug_and_fix_first_fix_converges wSuccDebugEnv 3 "x = 1" "NameError" "python"
    (by decide) rfl

/-- Claim C10: whenever `debug_and_fix` returns a failure outcome, its
`original_code` field is exactly the source passed in, and `last_error`
carries the error text of the last attempted execution. -/
theorem debug_and_fix_failure_preserves_original (env : DebugEnv) (maxR : Nat)
    (orig err lang : String)
    (h : (debug_and_fix env maxR orig err lang).1.success = false) :
    (debug_and_fix env maxR orig err lang).1.original_code = some orig ∧
    (debug_and_fix env maxR orig err lang).1.last_error =
      some (lastAttemptError env lang maxR orig err) :=
  debugLoop_failure_fields env maxR orig lang maxR 0 orig err h

/-- Witness for C10 at a concrete exhausted repair loop. -/
theorem debug_and_fix_failure_preserves_original_witness :
    (debug_and_fix wFailDebugEnv 3 "x = 1" "NameError" "python").1.original_code =
      some "x = 1" ∧
    (debug_and_fix wFailDebugEnv 3 "x = 1" "NameError" "python").1.last_error =
      some (lastAttemptError wFailDebugEnv "python" 3 "x = 1" "NameError") :=
  debug_and_fix_failure_preserves_original wFailDebugEnv 3 "x = 1" "NameError"
    "python" (by decide)

/-- Claim C3 counterexample: the code producer's fix is a source the security
policy rejects (`rm -rf /`), yet the repair loop does not stop early: it
executes the policy-violating source on every one of its three iterations,
consumes all attempts, and reports the ordinary exhaustion message — no
distinct security-violation report exists. -/
theorem debug_and_fix_policy_violation_not_terminal_cex :
    (sanitize_code cexSecPyEnv defaultSecurity cexViolatingFix "python").safe = false ∧
    (debug_and_fix cexDebugEnv 3 "x = 1" "NameError" "python").1.attempts = 3 ∧
    (debug_and_fix cexDebugEnv 3 "x = 1" "NameError" "python").2 =
      [cexViolatingFix, cexViolatingFix, cexViolatingFix] ∧
    (debug_and_fix cexDebugEnv 3 "x = 1" "NameError" "python").1.error =
      some "无法修复代码，已尝试3次" := by
  refine ⟨by decide, by decide, by decide, by decide⟩

/-- Claim C3 amended: the repair loop performs no security check on repaired
sources.  Even when the repaired source violates the security policy, it is
executed like any other candidate; if its executions fail, the loop consumes
all `maxAttempts` attempts and reports the ordinary exhaustion failure, not a
distinct security outcome. -/
theorem debug_and_fix_ignores_security_policy (env : DebugEnv) (penv : PyEnv)
    (mgr : SecurityManagerState) (maxR : Nat) (orig err lang : String)
    (hviol : (sanitize_code penv mgr (env.fix orig err lang) lang).safe = false)
    (hfail : ∀ c e, (test_code env (env.fix c e lang) lang).success = false) :
    (debug_and_fix env maxR orig err lang).2.length = maxR ∧
    (debug_and_fix env maxR orig err lang).1.success = false ∧
    (debug_and_fix env maxR orig err lang).1.error =
      some ("无法修复代码，已尝试" ++ toString maxR ++ "次") := by
  have h := debugLoop_all_fail env maxR orig lang hfail maxR 0 orig err
  exact ⟨h.2.2.2.2, h.1, h.2.2.1⟩

/-- Witness for the amended C3 at the concrete policy-violating producer. -/
theorem debug_and_fix_ignores_security_policy_witness :
    (debug_and_fix cexDebugEnv 3 "x = 1" "NameError" "python").2.length = 3 ∧
    (debug_and_fix cexDebugEnv 3 "x = 1" "NameError" "python").1.success = false ∧
    (debug_and_fix cexDebugEnv 3 "x = 1" "NameError" "python").1.error =
      some ("无法修复代码，已尝试" ++ toString 3 ++ "次") :=
  debug_and_fix_ignores_security_policy cexDebugEnv cexSecPyEnv defaultSecurity
    3 "x = 1" "NameError" "python" (by decide) (fun _ _ => rfl)

/-- Claim C4: for every source and language, the verdict is safe exactly when the
issue list is empty, and the warning collection (the case-insensitive
secret-pattern scan feeds only warnings) influences neither the safe flag
nor the issues. -/
theorem sanitize_code_safe_iff_no_issues (env : PyEnv)
    (mgr : SecurityManagerState) (code language : String) :
    ((sanitize_code env mgr code language).safe = true ↔
      (sanitize_code env mgr code language).issues = []) ∧
    ∀ f, (sanitize_code { env with reSearchCI := f } mgr code language).safe =
           (sanitize_code env mgr code language).safe ∧
         (sanitize_code { env with reSearchCI := f } mgr code language).issues =
           (sanitize_code env mgr code language).issues := by
  refine ⟨?_, fun f => ⟨rfl, rfl⟩⟩
  unfold sanitize_code
  exact List.isEmpty_iff

/-- Claim C2 (security gate half): any source containing a blacklisted destructive
command, matched case-insensitively as a substring, is judged unsafe by
`sanitize_code` for every language and every stdlib-oracle behaviour. -/
theorem security_short_circuit (henv : HandlerEnv) (st : WorkflowState)
    (userInput language stdin cmd : String)
    (hc : cmd ∈ BLACKLISTED_COMMANDS)
    (hsub : strContains (pyLower (henv.genCode userInput language))
      (pyLower cmd) = true) :
    (sanitize_code henv.pyEnv st.security (henv.genCode userInput language)
      language).safe = false ∧
    handle_execute_code henv st userInput language stdin =
      .ok ({ action := "execute_code"
             success := false
             error := some ("代码安全检查未通过: " ++
               pyStrListRepr (sanitize_code henv.pyEnv st.security
                 (henv.genCode userInput language) language).issues)
             code := some (henv.genCode userInput language) }, []) := by
  have hsafe := sanitize_code_unsafe_of_blacklisted_cmd henv.pyEnv st.security
    (henv.genCode userInput language) language cmd hc hsub
  refine ⟨hsafe, ?_⟩
  simp [handle_execute_code, hsafe]

/-- Witness for C2: a generated source `rm -rf /` is refused, and the
orchestrator call list is empty. -/
theorem security_short_circuit_witness :
    (sanitize_code wHandlerEnv.pyEnv wWorkflowState.security
      (wHandlerEnv.genCode "delete everything" "python") "python").safe = false ∧
    handle_execute_code wHandlerEnv wWorkflowState "delete everything" "python" "" =
      .ok ({ action := "execute_code"
             success := false
             error := some ("代码安全检查未通过: " ++
               pyStrListRepr (sanitize_code wHandlerEnv.pyEnv
                 wWorkflowState.security
                 (wHandlerEnv.genCode "delete everything" "python") "python").issues)
             code := some (wHandlerEnv.genCode "delete everything" "python") }, []) :=
  security_short_circuit wHandlerEnv wWorkflowState "delete everything" "python"
    "" "rm -rf" (by decide) (by decide)

/-- Claim C5: a language whose lowercased identifier is not in the registry makes
`execute` return an immediate failure result that names the (lowercased)
requested language in its error text, with no backend invocation and no
raised fault. -/
theorem execute_unsupported_language (env : ExecEnv) (st : MLExecutorState)
    (language code stdin : String)
    (h : lookupLanguage (pyLower language) = none) :
    MLexecute env st language code stdin =
      .ok (unsupportedLanguageResult (pyLower language), []) ∧
    (unsupportedLanguageResult (pyLower language)).success = false ∧
    strContains ((unsupportedLanguageResult (pyLower language)).error.getD "")
      (pyLower language) = true := by
  refine ⟨?_, rfl, ?_⟩
  · simp only [MLexecute, h]
  · exact strContains_append_middle "不支持的语言: " (pyLower language)
      (". 支持的语言: " ++ pyStrListRepr supportedLanguageNames)

/-- Witness for C5 at the spec's example identifier. -/
theorem execute_unsupported_language_witness :
    MLexecute trivialExecEnv {} "not-a-real-language" "print(1)" "" =
      .ok (unsupportedLanguageResult (pyLower "not-a-real-language"), []) ∧
    (unsupportedLanguageResult (pyLower "not-a-real-language")).success = false ∧
    strContains
      ((unsupportedLanguageResult (pyLower "not-a-real-language")).error.getD "")
      (pyLower "not-a-real-language") = true :=
  execute_unsupported_language trivialExecEnv {} "not-a-real-language"
    "print(1)" "" (by decide)

/-- Claim C7 counterexample: the container run of the multi-language executor
raises with a message carrying the meaningful exit code 137 (the parse the
python-only `CodeExecutor` would apply extracts exactly 137 from it), yet
the returned result reports `exit_code = -1`, not 137. -/
theorem docker_exit_code_not_carried_cex :
    (execute_in_docker cexDockerEnv {} "python" "print(1)" "" pythonConfig).success
      = false ∧
    (execute_in_docker cexDockerEnv {} "python" "print(1)" "" pythonConfig).exit_code
      = some (-1) ∧
    pyInt ((pySplit ((pySplit cexDockerMsg "exit code ").getLastD "") ")").headD "")
      = some 137 ∧
    some (-1 : Int) ≠ some (137 : Int) := by
  refine ⟨rfl, rfl, by decide, by decide⟩

/-- Claim C7 amended: a failed container invocation is always converted into a
`success=false` result and never propagated: the multi-language executor
reports the exception text with `exit_code = -1` regardless of the
container's exit code, while `CodeExecutor`'s python docker path parses the
number after `"exit code "` out of the message and carries it when the parse
succeeds. -/
theorem docker_invocation_failure_converted (env : ExecEnv)
    (st : MLExecutorState) (language code stdin : String) (config : LangConfig)
    (msg : String) (himp : env.dockerImportOk = true)
    (hrun : env.dockerRun st language code stdin config = .error msg) :
    (execute_in_docker env st language code stdin config).success = false ∧
    (execute_in_docker env st language code stdin config).error = some msg ∧
    (execute_in_docker env st language code stdin config).exit_code = some (-1) ∧
    (∀ msg2 n, strContains (pyLower msg2) "exit code" = true →
      pyInt ((pySplit ((pySplit msg2 "exit code ").getLastD "") ")").headD "")
        = some n →
      py_docker_exception_handler msg2 =
        .ok { success := false, output := some "", error := some msg2,
              exit_code := some n }) := by
  refine ⟨?_, ?_, ?_, ?_⟩
  · simp [execute_in_docker, himp, hrun, mlDockerExceptionResult]
  · simp [execute_in_docker, himp, hrun, mlDockerExceptionResult]
  · simp [execute_in_docker, himp, hrun, mlDockerExceptionResult]
  · intro msg2 n hcontains hparse
    unfold py_docker_exception_handler
    rw [hcontains, if_pos rfl, hparse]

/-- Witness for the amended C7 at the concrete exit-code-137 failure. -/
theorem docker_invocation_failure_converted_witness :
    (execute_in_docker cexDockerEnv {} "python" "print(1)" "" pythonConfig).success
      = false ∧
    (execute_in_docker cexDockerEnv {} "python" "print(1)" "" pythonConfig).error
      = some cexDockerMsg ∧
    (execute_in_docker cexDockerEnv {} "python" "print(1)" "" pythonConfig).exit_code
      = some (-1) ∧
    (∀ msg2 n, strContains (pyLower msg2) "exit code" = true →
      pyInt ((pySplit ((pySplit msg2 "exit code ").getLastD "") ")").headD "")
        = some n →
      py_docker_exception_handler msg2 =
        .ok { success := false, output := some "", error := some msg2,
              exit_code := some n }) :=
  docker_invocation_failure_converted cexDockerEnv {} "python" "print(1)" ""
    pythonConfig cexDockerMsg rfl rfl

/-- Claim C8 counterexample: in explicit `daytona` mode with the API key missing,
`execute` does not return a configuration-error result at all — the
`ValueError` raised by the Daytona client escapes `execute` unhandled. -/
theorem daytona_missing_credentials_raises_cex :
    MLexecute trivialExecEnv cexDaytonaNoKeySt "python" "print(1)" "" =
      .error "Daytona API密钥未配置" := rfl

/-- Claim C8 amended: in explicit mode the orchestrator never falls back: docker
mode with the runtime probe negative returns a configuration-error result
with no backend call; daytona mode without a constructed client returns a
configuration-error result with no backend call; daytona mode with a client
whose API key is falsy raises a `ValueError` out of `execute` instead of
returning a result. -/
theorem execute_explicit_mode_no_fallback (env : ExecEnv)
    (st : MLExecutorState) (language code stdin : String) (config : LangConfig)
    (hlang : lookupLanguage (pyLower language) = some config) :
    (st.execution_mode = "docker" → st.use_docker = false →
      MLexecute env st language code stdin =
        .ok ({ success := false, error := some "Docker不可用，无法执行",
               exit_code := some (-1) }, [])) ∧
    (st.execution_mode = "daytona" → st.daytona_executor = none →
      MLexecute env st language code stdin =
        .ok ({ success := false, error := some "Daytona模式需要API密钥配置",
               exit_code := some (-1) }, [])) ∧
    (∀ d, st.execution_mode = "daytona" → st.daytona_executor = some d →
      pyFalsyStr d.api_key = true →
      MLexecute env st language code stdin = .error "Daytona API密钥未配置") := by
  refine ⟨?_, ?_, ?_⟩
  · intro hmode hdock
    simp [MLexecute, hlang, hmode, hdock]
  · intro hmode hexec
    simp [MLexecute, hlang, hmode, hexec]
  · intro d hmode hexec hkey
    simp [MLexecute, hlang, hmode, hexec, daytona_execute_code, hkey]

/-- Witness for the amended C8: all three explicit-mode behaviours at
concrete states. -/
theorem execute_explicit_mode_no_fallback_witness :
    (MLexecute trivialExecEnv wDockerModeSt "python" "print(1)" "" =
      .ok ({ success := false, error := some "Docker不可用，无法执行",
             exit_code := some (-1) }, [])) ∧
    (MLexecute trivialExecEnv wDaytonaNoneSt "python" "print(1)" "" =
      .ok ({ success := false, error := some "Daytona模式需要API密钥配置",
             exit_code := some (-1) }, [])) ∧
    (MLexecute trivialExecEnv wDaytonaEmptyKeySt "python" "print(1)" "" =
      .error "Daytona API密钥未配置") := by
  refine ⟨?_, ?_, ?_⟩
  · exact (execute_explicit_mode_no_fallback trivialExecEnv wDockerModeSt
      "python" "print(1)" "" pythonConfig rfl).1 rfl rfl
  · exact (execute_explicit_mode_no_fallback trivialExecEnv wDaytonaNoneSt
      "python" "print(1)" "" pythonConfig rfl).2.1 rfl rfl
  · exact (execute_explicit_mode_no_fallback trivialExecEnv wDaytonaEmptyKeySt
      "python" "print(1)" "" pythonConfig rfl).2.2 { api_key := some "" } rfl
      rfl rfl

/-- Claim C9 counterexample: a function whose self-call is guarded only by a `for`
loop.  The claim's predicate (no conditional or loop construct) does not
flag it, but the source's check — which looks only for `If` and `While` —
does, and `sanitize_code` reports the recursion issue for it. -/
theorem recursion_heuristic_for_loop_cex :
    detect_infinite_recursion_ast cexRecursionAst = true ∧
    specRecursionFlag cexRecursionAst = false ∧
    "可能包含无限递归" ∈
      (sanitize_code cexRecursionPyEnv defaultSecurity cexRecursionSource
        "python").issues := by
  refine ⟨rfl, rfl, by decide⟩

/-- Claim C9 amended: the unbounded-recursion check flags a violation exactly when
some function definition contains (anywhere among its descendants) a call to
its own name and contains no `if` statement and no `while` statement; `for`
loops and all other constructs do not count as termination conditions, and
no reachability analysis is performed. -/
theorem detect_infinite_recursion_characterization (tree : PyNode) :
    detect_infinite_recursion_ast tree = true ↔
      ∃ name body, PyNode.functionDef name body ∈ walkNode tree ∧
        (∃ args, PyNode.callName name args ∈
          walkNode (PyNode.functionDef name body)) ∧
        (∀ cs, PyNode.ifStmt cs ∉ walkNode (PyNode.functionDef name body)) ∧
        (∀ cs, PyNode.whileStmt cs ∉ walkNode (PyNode.functionDef name body)) := by
  unfold detect_infinite_recursion_ast
  rw [List.any_eq_true]
  constructor
  · rintro ⟨n, hn, hp⟩
    cases n with
    | functionDef name body =>
        simp only [recursionSuspect, Bool.and_eq_true, Bool.not_eq_true'] at hp
        obtain ⟨h1, h2⟩ := hp
        refine ⟨name, body, hn, ?_, ?_, ?_⟩
        · unfold hasSelfCall at h1
          rw [List.any_eq_true] at h1
          obtain ⟨sub, hsub, hcall⟩ := h1
          cases sub with
          | callName f args =>
              rw [isSelfCallOf, beq_iff_eq] at hcall
              exact ⟨args, hcall ▸ hsub⟩
          | functionDef a b => simp [isSelfCallOf] at hcall
          | ifStmt cs => simp [isSelfCallOf] at hcall
          | whileStmt cs => simp [isSelfCallOf] at hcall
          | forStmt cs => simp [isSelfCallOf] at hcall
          | callOther cs => simp [isSelfCallOf] at hcall
          | importStmt a => simp [isSelfCallOf] at hcall
          | importFrom a b => simp [isSelfCallOf] at hcall
          | other cs => simp [isSelfCallOf] at hcall
        · intro cs hmem
          unfold has_termination_condition at h2
          rw [List.any_eq_false] at h2
          exact absurd rfl (h2 _ hmem)
        · intro cs hmem
          unfold has_termination_condition at h2
          rw [List.any_eq_false] at h2
          exact absurd rfl (h2 _ hmem)
    | ifStmt cs => simp [recursionSuspect] at hp
    | whileStmt cs => simp [recursionSuspect] at hp
    | forStmt cs => simp [recursionSuspect] at hp
    | callName f args => simp [recursionSuspect] at hp
    | callOther cs => simp [recursionSuspect] at hp
    | importStmt a => simp [recursionSuspect] at hp
    | importFrom a b => simp [recursionSuspect] at hp
    | other cs => simp [recursionSuspect] at hp
  · rintro ⟨name, body, hmem, ⟨args, hcall⟩, hif, hwhile⟩
    refine ⟨PyNode.functionDef name body, hmem, ?_⟩
    simp only [recursionSuspect, Bool.and_eq_true, Bool.not_eq_true']
    constructor
    · unfold hasSelfCall
      rw [List.any_eq_true]
      exact ⟨PyNode.callName name args, hcall, by simp [isSelfCallOf]⟩
    · unfold has_termination_condition
      rw [List.any_eq_false]
      intro sub hsub
      cases sub with
      | ifStmt cs => exact absurd hsub (hif cs)
      | whileStmt cs => exact absurd hsub (hwhile cs)
      | functionDef a b => simp [isIfOrWhile]
      | forStmt cs => simp [isIfOrWhile]
      | callName f a => simp [isIfOrWhile]
      | callOther cs => simp [isIfOrWhile]
      | importStmt a => simp [isIfOrWhile]
      | importFrom a b => simp [isIfOrWhile]
      | other cs => simp [isIfOrWhile]
